import Mathlib

/-!
Verification of the WinMacGlobalInstaller / FileUtilities core of the
vscode-dotnet-runtime repository.

The TypeScript source is embedded shallowly: pure functions become Lean
functions; the effectful `installSDK` pipeline becomes a function from an
explicit environment (OS platform, registry contents, HTTP outcome, file
system) to a result together with a trace of the side effects it performs,
in order.  JavaScript array indices and `Number` comparisons are modelled
over `Nat`/`String` as they behave on the inputs in question.
-/

namespace DotnetInstaller

/-! ## Character-level string primitives

JavaScript string operations are modelled structurally over `List Char`
so that every definition evaluates inside the kernel. -/

/-- JavaScript String.split with a one-character separator, over the
character list: each occurrence of `sep` ends the current (possibly empty)
group. -/
def splitChar (sep : Char) : List Char → List (List Char)
  | [] => [[]]
  | c :: cs =>
    match splitChar sep cs with
    | [] => [[]]
    | r :: rs => if c == sep then [] :: (r :: rs) else (c :: r) :: rs

/-- JavaScript String.split with a one-character separator string. -/
def jsSplit (sep : Char) (s : String) : List String :=
  (splitChar sep s.data).map (fun cs => String.mk cs)

/-- Accumulator loop of decimal parsing: fails on any non-digit. -/
def toNatAux : List Char → Nat → Option Nat
  | [], acc => some acc
  | c :: cs, acc =>
    if c.isDigit then toNatAux cs (acc * 10 + (c.toNat - 48)) else none

/-- Decimal parsing of a nonnegative integral token (the behaviour of the
JavaScript Number coercion on the version components appearing here, and
of String.toNat?): `none` on the empty string or any non-digit. -/
def jsToNat? (s : String) : Option Nat :=
  match s.data with
  | [] => none
  | l => toNatAux l 0

/-- Joining path components back with the separator, the inverse of
splitting on it. -/
def joinSlash : List String → String
  | [] => ""
  | [x] => x
  | x :: xs => x ++ "/" ++ joinSlash xs

/-! ## Version parsing (VersionResolver)

The `VersionResolver` class itself is not part of the provided sources
(only its call sites are), so its three accessors are modelled from the
spec. -/

/-- A fully-specified three-part version `major.minor.patch`. -/
structure ParsedVersion where
  major : Nat
  minor : Nat
  patch : Nat
deriving DecidableEq, Repr

/-- Modelled from the spec: `VersionResolver` parsing of a fully-specified
version string.  "Fails with MalformedVersionError if a version string does
not parse into at least major.minor.patch"; here failure is `none`. -/
def parseVersion (s : String) : Option ParsedVersion :=
  match jsSplit '.' s with
  | [a, b, c] =>
    match jsToNat? a, jsToNat? b, jsToNat? c with
    | some ma, some mi, some pa => some ⟨ma, mi, pa⟩
    | _, _, _ => none
  | _ => none

/-- Modelled from the spec: `VersionResolver.getMajorMinor` — the
major.minor pair of a fully-specified version. -/
def getMajorMinor (v : ParsedVersion) : Nat × Nat :=
  (v.major, v.minor)

/-- Modelled from the spec: `VersionResolver.getFeatureBandFromVersion` —
"Feature band = hundreds digit group of the patch component
(e.g., patch 103 → band 1)". -/
def getFeatureBandFromVersion (v : ParsedVersion) : Nat :=
  v.patch / 100

/-- Modelled from the spec: `VersionResolver.getFeatureBandPatchVersion` —
the patch position within the feature band (e.g. patch 203 → band patch 3). -/
def getFeatureBandPatchVersion (v : ParsedVersion) : Nat :=
  v.patch % 100

/-! ## The conflict check (WinMacGlobalInstaller, part_000 lines 218–236) -/

/-- The loop condition of `GlobalWindowsInstallWithConflictingVersionAlreadyExists`
(part_000 lines 226–228): equal major.minor, equal feature band, and the
requested band patch is at most the installed band patch.  In the source the
three comparisons are between `Number(...)` coercions; when either version
string fails to parse the JavaScript comparisons are against `NaN` and are
false, modelled here by `false` on a `none` parse. -/
def versionsConflict (requestedVersion sdk : String) : Bool :=
  match parseVersion requestedVersion, parseVersion sdk with
  | some rv, some sv =>
    getMajorMinor rv == getMajorMinor sv &&
    getFeatureBandFromVersion rv == getFeatureBandFromVersion sv &&
    getFeatureBandPatchVersion rv ≤ getFeatureBandPatchVersion sv
  | _, _ => false

/-- The function `GlobalWindowsInstallWithConflictingVersionAlreadyExists` (part_000
lines 218–236), with the awaited result of
`getGlobalSdkVersionsInstalledOnMachine` passed in as `sdks`: returns the
first installed sdk satisfying the conflict condition, or the empty string
when none does. -/
def GlobalWindowsInstallWithConflictingVersionAlreadyExists
    (sdks : List String) (requestedVersion : String) : String :=
  match sdks.find? (fun sdk => versionsConflict requestedVersion sdk) with
  | some sdk => sdk
  | none => ""

/-! ## Registry output parsing (part_000 lines 198–209) -/

/-- JavaScript `Array.prototype.filter` with the element index passed to the
callback, as used twice in `extractVersionsOutOfRegistryKeyStrings`. -/
def filterWithIndex (p : String → Nat → Bool) (xs : List String) : List String :=
  (xs.enum.filter (fun iv => p iv.2 iv.1)).map Prod.snd

/-- The function `extractVersionsOutOfRegistryKeyStrings` (part_000 lines 198–209):
split the raw query output on single spaces, drop blank tokens and the
token at index 0 (the query echo), then keep the tokens whose index in the
remaining list is a multiple of three. -/
def extractVersionsOutOfRegistryKeyStrings (registryQueryResult : String) : List String :=
  filterWithIndex (fun _value i => i % 3 == 0)
    (filterWithIndex (fun value i => value != "" && i != 0)
      (jsSplit ' ' registryQueryResult))

/-! ## Registry enumeration (part_000 lines 242–271) -/

/-- The environment for the Windows registry enumeration: the raw string
output of the 32-bit and of the 64-bit registry query. -/
structure RegistryEnv where
  output32 : String
  output64 : String

/-- The function `getGlobalSdkVersionsInstalledOnMachine` (part_000 lines 242–271).
The loop body runs `sdks.concat(installedSdks)` (line 261); JavaScript
`Array.prototype.concat` returns a NEW array and the result of the call is not
assigned, so `sdks` is never extended.  The discarded concatenations are
kept here as unused `let` bindings to mirror the source line. -/
def getGlobalSdkVersionsInstalledOnMachine
    (platform : String) (env : RegistryEnv) : List String :=
  let sdks : List String := []
  if platform == "win32" then
    let _discarded32 := sdks ++ extractVersionsOutOfRegistryKeyStrings env.output32
    let _discarded64 := sdks ++ extractVersionsOutOfRegistryKeyStrings env.output64
    sdks
  else
    sdks

/-! ## A small file-system model

The file system is an association list from paths to file contents.
Directories are implicit: the parent directory of a file is the part of its
path before the last separator. -/

/-- Paths mapped to file contents. -/
def FsState := List (String × String)

/-- Whether a file exists at `p`. -/
def fsHas (fs : FsState) (p : String) : Bool :=
  (fs.find? (fun e => e.1 == p)).isSome

/-- Node fs.unlink: remove the file at `p` if present. -/
def fsRemove (fs : FsState) (p : String) : FsState :=
  fs.filter (fun e => e.1 != p)

/-- Create or overwrite the file at `p` with contents `c`. -/
def fsSet (fs : FsState) (p : String) (c : String) : FsState :=
  (p, c) :: fsRemove fs p

/-- The part of a POSIX path before the last separator (`path.dirname` for
the relative and multi-component absolute paths used here; the `"/x"`
root-file corner of Node is not needed by any claim). -/
def pathDirname (p : String) : String :=
  let parts := jsSplit '/' p
  if parts.length ≤ 1 then "." else joinSlash parts.dropLast

/-- Node path.join of two segments, for a base directory `a` written without a trailing
separator, as the scratch folder is. -/
def pathJoin (a b : String) : String := a ++ "/" ++ b

/-! ## FileUtilities.wipeDirectory (part_001 lines 27–38) -/

/-- The function `FileUtilities.wipeDirectory`: read the directory listing and unlink
every file directly inside it; the directory itself is kept.  Modelled as
removing every file whose parent directory is `directoryToWipe`. -/
def wipeDirectory (directoryToWipe : String) (fs : FsState) : FsState :=
  fs.filter (fun e => pathDirname e.1 != directoryToWipe)

/-! ## FileUtilities.isElevated (part_001 lines 44–63) -/

/-- The environment `isElevated` runs in. -/
structure ElevationEnv where
  /-- The value of os.platform(). -/
  platform : String
  /-- The `status` field of `spawnSync("id", ["-u"])`; `none` models a null
  status (the process could not be spawned).  On a POSIX machine where the
  `id` utility is present, `id -u` prints the uid and exits with status `0`
  for EVERY user, so this field is `some 0` regardless of
  `effectiveUserId`. -/
  idUnixStatus : Option Int
  /-- The effective user id of the running process.  The source never reads
  it; it is recorded so that the claimed behaviour can be stated. -/
  effectiveUserId : Nat
  /-- Whether `execFileSync("net", ["session"])` succeeds, which on Windows
  happens only in an elevated session (any failure, including `net` being
  absent, raises and is caught). -/
  netSessionSucceeds : Bool

/-- The function `FileUtilities.isElevated` (part_001 lines 44–63): on non-Windows
platforms it returns whether `spawnSync("id", ["-u"]).status === 0`; on
Windows it returns whether the `net session` probe succeeded (the
`try`/`catch` turns any failure into `false`). -/
def isElevated (env : ElevationEnv) : Bool :=
  if env.platform != "win32" then
    env.idUnixStatus == some 0
  else
    env.netSessionSucceeds

/-! ## The download primitive (part_000 lines 77–126) -/

/-- Outcome of the `https.get` request issued by `download`. -/
inductive HttpOutcome where
  /-- The request emitted an `error` event with this message. -/
  | transportError (message : String)
  /-- The server responded with this status code, status message and
  body. -/
  | response (statusCode : Nat) (statusMessage : String) (body : String)
deriving DecidableEq, Repr

/-- The message of the Node error delivered to the `error` handler of the write stream
handler when an exclusive create (`flags: "wx"`) hits an existing file: the
`message` field is of the form `EEXIST: file already exists, open <dest>`
(only the `code` field of the error is the bare string `EEXIST`). -/
def nodeEexistMessage (dest : String) : String :=
  "EEXIST: file already exists, open " ++ dest

/-- The method `download` of part_000 lines 77–126, over the file-system
model.  `fs.createWriteStream(dest, { flags: "wx" })` creates an empty file
at `dest`, or emits an `error` event when `dest` already exists; the
handler at lines 111–124 compares `err.message` with the bare string
`"EEXIST"` — since the actual message is `nodeEexistMessage dest`, the
`else` branch runs: it unlinks `dest` and rejects with `err.message`.
On a fresh destination: a 200 response pipes the body into the file and
resolves; a non-200 response or a transport error closes the stream,
unlinks `dest` and rejects. -/
def download (url dest : String) (http : HttpOutcome) (fs : FsState) :
    Except String Unit × FsState :=
  let _ := url
  if fsHas fs dest then
    let errMessage := nodeEexistMessage dest
    if errMessage == "EEXIST" then
      (Except.error "File already exists", fs)
    else
      (Except.error errMessage, fsRemove fs dest)
  else
    let fs1 := fsSet fs dest ""
    match http with
    | HttpOutcome.transportError message =>
      (Except.error message, fsRemove fs1 dest)
    | HttpOutcome.response statusCode statusMessage body =>
      if statusCode == 200 then
        (Except.ok (), fsSet fs1 dest body)
      else
        (Except.error ("Server responded with " ++ toString statusCode ++ ": " ++ statusMessage),
         fsRemove fs1 dest)

/-! ## getExpectedGlobalSDKPath (part_000 lines 128–155) -/

/-- The message of the error thrown at part_000 line 154. -/
def unsupportedOSMessage : String := "The operating system is unsupported."

/-- Node path.win32.join of three segments, for a `base` literal written with a
trailing backslash in the source, which `path.join` does not duplicate. -/
def winPathJoin (base v file : String) : String :=
  base ++ v ++ "\\" ++ file

/-- The method `getExpectedGlobalSDKPath` (part_000 lines 128–155), with `os.platform()`
made an explicit argument.  On `win32` an architecture other than `x32` or
`x64` falls through the inner `if`/`else if` to the throw at line 154. -/
def getExpectedGlobalSDKPath (platform specificSDKVersionInstalled installedArch : String) :
    Except String String :=
  if platform == "win32" then
    if installedArch == "x32" then
      Except.ok (winPathJoin "C:\\Program Files (x86)\\dotnet\\sdk\\" specificSDKVersionInstalled "dotnet.dll")
    else if installedArch == "x64" then
      Except.ok (winPathJoin "C:\\Program Files\\dotnet\\sdk\\" specificSDKVersionInstalled "dotnet.dll")
    else
      Except.error unsupportedOSMessage
  else if platform == "darwin" then
    if installedArch != "x64" then
      Except.ok (pathJoin "/usr/local/share/dotnet/sdk" specificSDKVersionInstalled)
    else
      Except.ok (pathJoin "/usr/local/share/dotnet/x64/dotnet/sdk" specificSDKVersionInstalled)
  else
    Except.error unsupportedOSMessage

/-! ## The installSDK pipeline (part_000 lines 35–70) -/

/-- One observable side effect of an `installSDK` run, in program order. -/
inductive InstallEffect where
  /-- A post of an error event with this
  message. -/
  | postEvent (message : String)
  /-- A call of FileUtilities.wipeDirectory on dir. -/
  | wipe (dir : String)
  /-- The `https.get` download of `url` into `dest`. -/
  | httpDownload (url dest : String)
  /-- The executeInstall step: spawning the installer at this path. -/
  | runInstaller (path : String)
deriving DecidableEq, Repr

/-- The environment of one `installSDK` run. -/
structure InstallConfig where
  /-- The value of os.platform(). -/
  platform : String
  /-- The field installingVersion of the installer object. -/
  installingVersion : String
  /-- The field installerUrl of the installer object. -/
  installerUrl : String
  /-- The list the awaited `getGlobalSdkVersionsInstalledOnMachine()` call
  yields.  Its faithful model always returns `[]` (see
  `getGlobalSdkVersionsInstalledOnMachine`); it is kept abstract here so
  the conflict-handling control flow of `installSDK` can be stated for a
  machine that does have installed SDKs. -/
  enumeratedSdks : List String
  /-- Modelled from the spec: `IGlobalInstaller.getDownloadedInstallFilesFolder()`
  is not among the provided sources; the spec calls it "a dedicated,
  caller-owned scratch directory". -/
  scratchFolder : String
  /-- Outcome of the HTTPS request made by `download`. -/
  http : HttpOutcome
  /-- The raw output `executeInstall` resolves with; its `try`/`catch`
  blocks (part_000 lines 162–191) catch every error, so it always
  resolves. -/
  installerOutput : String

/-- The error message built at part_000 lines 43–44 (the template
line break and indentation of the template literal collapsed to a single space). -/
def conflictErrorMessage (conflictingVersion : String) : String :=
  "An global install is already on the machine: version " ++ conflictingVersion ++
    ", that conflicts with the requested version. Please uninstall this version first if you would like to continue."

/-- The value of the template literal over installerUrl.split("/").slice(-1): the final path segment of the
source URL (a one-element array rendered inside a template literal). -/
def lastUrlSegment (url : String) : String :=
  ((jsSplit '/' url).getLast?).getD ""

/-- How an `installSDK` run ends. -/
inductive InstallOutcome where
  /-- Resolved with the raw installer output. -/
  | ok (installerResult : String)
  /-- Rejected / threw with this message. -/
  | thrown (message : String)
deriving DecidableEq, Repr

/-- Lines 50–55 of part_000, reached when the conflict gate did not throw:
`downloadInstaller` (lines 63–70) wipes the scratch folder and downloads
the installer into it; a rejected download propagates out of `installSDK`
before the final `wipeDirectory` at line 53 runs; a resolved download is
followed by `executeInstall` (which always resolves) and then by the final
wipe of `path.dirname(installerFile)`. -/
def installSDKDownloadAndRun (cfg : InstallConfig) (fs0 : FsState) :
    InstallOutcome × List InstallEffect × FsState :=
  let fs1 := wipeDirectory cfg.scratchFolder fs0
  let installerPath := pathJoin cfg.scratchFolder (lastUrlSegment cfg.installerUrl)
  let dl := download cfg.installerUrl installerPath cfg.http fs1
  match dl.1 with
  | Except.error e =>
    (InstallOutcome.thrown e,
     [InstallEffect.wipe cfg.scratchFolder,
      InstallEffect.httpDownload cfg.installerUrl installerPath], dl.2)
  | Except.ok _ =>
    (InstallOutcome.ok cfg.installerOutput,
     [InstallEffect.wipe cfg.scratchFolder,
      InstallEffect.httpDownload cfg.installerUrl installerPath,
      InstallEffect.runInstaller installerPath,
      InstallEffect.wipe (pathDirname installerPath)],
     wipeDirectory (pathDirname installerPath) dl.2)

/-- The method `installSDK` (part_000 lines 35–56): on `win32`, if the conflict check
returns a non-empty version, an error carrying that version is posted to
the event stream and then thrown, before any download; otherwise the
download / install / cleanup sequence runs. -/
def installSDK (cfg : InstallConfig) (fs0 : FsState) :
    InstallOutcome × List InstallEffect × FsState :=
  if cfg.platform == "win32" then
    let conflictingVersion :=
      GlobalWindowsInstallWithConflictingVersionAlreadyExists cfg.enumeratedSdks cfg.installingVersion
    if conflictingVersion != "" then
      let msg := conflictErrorMessage conflictingVersion
      (InstallOutcome.thrown msg, [InstallEffect.postEvent msg], fs0)
    else
      installSDKDownloadAndRun cfg fs0
  else
    installSDKDownloadAndRun cfg fs0

/-! ## Concrete environments used by witnesses and counterexamples -/

/-- A registry environment whose 64-bit query output parses to one
version. -/
def c2Registry : RegistryEnv :=
  { output32 := "", output64 := "ECHO 7.0.203 REG_SZ 0x1" }

/-- A Windows run whose machine (as enumerated) holds the conflicting
version 7.0.203 while 7.0.201 is requested. -/
def c4Cfg : InstallConfig :=
  { platform := "win32", installingVersion := "7.0.201",
    installerUrl := "https://server/dotnet-sdk.exe",
    enumeratedSdks := ["7.0.203"], scratchFolder := "scratch",
    http := HttpOutcome.response 200 "OK" "bits", installerOutput := "out" }

/-- A run whose download dies with a transport error. -/
def c5FailCfg : InstallConfig :=
  { platform := "linux", installingVersion := "7.0.201",
    installerUrl := "https://server/dotnet-sdk.pkg",
    enumeratedSdks := [], scratchFolder := "scratch",
    http := HttpOutcome.transportError "socket hang up", installerOutput := "" }

/-- A macOS run whose download succeeds. -/
def c5OkCfg : InstallConfig :=
  { platform := "darwin", installingVersion := "7.0.201",
    installerUrl := "https://server/dotnet-sdk.pkg",
    enumeratedSdks := [], scratchFolder := "scratch",
    http := HttpOutcome.response 200 "OK" "bits", installerOutput := "install-ok" }

/-- A non-Windows session of an ordinary (non-root) user on a machine where
the id utility is present: the probe spawnSync("id", ["-u"]) runs fine and
exits with status 0 even though the effective user id is 1000. -/
def c9Env : ElevationEnv :=
  { platform := "linux", idUnixStatus := some 0, effectiveUserId := 1000,
    netSessionSucceeds := false }

/-! ## Helper lemmas -/

/-- String append is associative. -/
theorem strAppend_assoc (a b c : String) : a ++ b ++ c = a ++ (b ++ c) := by
  cases a with
  | mk la =>
    cases b with
    | mk lb =>
      cases c with
      | mk lc =>
        show String.mk (la ++ lb ++ lc) = String.mk (la ++ (lb ++ lc))
        rw [List.append_assoc]

/-- Removing a path removes it: the file-removal model leaves no entry at
the removed path. -/
theorem fsHas_fsRemove (fs : FsState) (p : String) :
    fsHas (fsRemove fs p) p = false := by
  induction fs with
  | nil => rfl
  | cons e t ih =>
    by_cases h : e.1 = p
    · have hb : (e.1 != p) = false := by simp [h]
      show fsHas (List.filter (fun x => x.1 != p) (e :: t)) p = false
      rw [List.filter_cons, hb]
      simpa [fsRemove] using ih
    · have hb : (e.1 != p) = true := by simp [h]
      have hp : ¬ ((fun x : String × String => x.1 == p) e = true) := by simp [h]
      show fsHas (List.filter (fun x => x.1 != p) (e :: t)) p = false
      rw [List.filter_cons, hb]
      show (List.find? (fun x => x.1 == p) (e :: List.filter (fun x => x.1 != p) t)).isSome = false
      rw [List.find?_cons_of_neg (List.filter (fun x => x.1 != p) t) hp]
      exact ih

/-- A string that parses as a version is not empty. -/
theorem parseVersion_ne_empty {s : String} {v : ParsedVersion}
    (h : parseVersion s = some v) : s ≠ "" := by
  intro he
  subst he
  rw [show parseVersion "" = none from rfl] at h
  exact Option.noConfusion h

/-- The loop condition of the conflict check, characterised through the
parsed components. -/
theorem versionsConflict_iff (A B : String) (pA pB : ParsedVersion)
    (hA : parseVersion A = some pA) (hB : parseVersion B = some pB) :
    versionsConflict A B = true ↔
      (getMajorMinor pA = getMajorMinor pB ∧
       getFeatureBandFromVersion pA = getFeatureBandFromVersion pB ∧
       getFeatureBandPatchVersion pA ≤ getFeatureBandPatchVersion pB) := by
  unfold versionsConflict
  rw [hA, hB]
  simp [Bool.and_eq_true, beq_iff_eq, decide_eq_true_eq, and_assoc]

/-! ## Claim theorems -/

/-- C1: for a requested version A and an installed version B, the conflict
check reports B as conflicting with A iff A and B have equal major.minor,
equal feature band, and the band patch of A is at most the band patch of B;
over any installed list it returns the empty string when no element
conflicts and a conflicting element when one does; installed 7.0.203
conflicts with requested 7.0.201 but not with requested 7.0.301. -/
theorem C1_conflict_rule (A B : String) (pA pB : ParsedVersion)
    (hA : parseVersion A = some pA) (hB : parseVersion B = some pB) :
    (GlobalWindowsInstallWithConflictingVersionAlreadyExists [B] A = B ↔
      (getMajorMinor pA = getMajorMinor pB ∧
       getFeatureBandFromVersion pA = getFeatureBandFromVersion pB ∧
       getFeatureBandPatchVersion pA ≤ getFeatureBandPatchVersion pB)) ∧
    (∀ sdks : List String, (∀ b ∈ sdks, versionsConflict A b = false) →
      GlobalWindowsInstallWithConflictingVersionAlreadyExists sdks A = "") ∧
    (∀ sdks : List String, (∃ b ∈ sdks, versionsConflict A b = true) →
      GlobalWindowsInstallWithConflictingVersionAlreadyExists sdks A ∈ sdks ∧
      versionsConflict A (GlobalWindowsInstallWithConflictingVersionAlreadyExists sdks A) = true) ∧
    GlobalWindowsInstallWithConflictingVersionAlreadyExists ["7.0.203"] "7.0.201" = "7.0.203" ∧
    GlobalWindowsInstallWithConflictingVersionAlreadyExists ["7.0.203"] "7.0.301" = "" := by
  have hBne := parseVersion_ne_empty hB
  refine ⟨?_, ?_, ?_, by decide, by decide⟩
  · unfold GlobalWindowsInstallWithConflictingVersionAlreadyExists
    by_cases hc : versionsConflict A B = true
    · rw [List.find?_cons_of_pos [] hc]
      constructor
      · intro _
        exact (versionsConflict_iff A B pA pB hA hB).mp hc
      · intro _
        rfl
    · rw [List.find?_cons_of_neg [] hc, List.find?_nil]
      constructor
      · intro hEq
        exact absurd hEq.symm hBne
      · intro hr
        exact absurd ((versionsConflict_iff A B pA pB hA hB).mpr hr) hc
  · intro sdks hall
    unfold GlobalWindowsInstallWithConflictingVersionAlreadyExists
    have hnone : List.find? (fun sdk => versionsConflict A sdk) sdks = none := by
      rw [List.find?_eq_none]
      intro x hx
      simp [hall x hx]
    rw [hnone]
  · rintro sdks ⟨b, hbmem, hcb⟩
    unfold GlobalWindowsInstallWithConflictingVersionAlreadyExists
    cases hfind : List.find? (fun sdk => versionsConflict A sdk) sdks with
    | none =>
      exfalso
      have := List.find?_eq_none.mp hfind b hbmem
      simp [hcb] at this
    | some v =>
      exact ⟨List.mem_of_find?_eq_some hfind, List.find?_some hfind⟩

/-- Witness for C1 at requested 7.0.201 against installed 7.0.203. -/
theorem C1_conflict_rule_witness :
    GlobalWindowsInstallWithConflictingVersionAlreadyExists ["7.0.203"] "7.0.201" = "7.0.203" :=
  (C1_conflict_rule "7.0.201" "7.0.203" ⟨7, 0, 201⟩ ⟨7, 0, 203⟩ (by decide) (by decide)).2.2.2.1

/-- C2 (code bug): the Windows enumeration parses a version out of the
64-bit hive output, yet returns the empty list, because the result of
sdks.concat at part_000 line 261 is discarded; so a version parsed from a
hive query does NOT appear in the returned array. -/
theorem C2_enumeration_drops_parsed_versions :
    extractVersionsOutOfRegistryKeyStrings c2Registry.output64 = ["7.0.203"] ∧
    getGlobalSdkVersionsInstalledOnMachine "win32" c2Registry = [] ∧
    "7.0.203" ∉ getGlobalSdkVersionsInstalledOnMachine "win32" c2Registry := by
  refine ⟨by decide, by decide, by decide⟩

/-- C3 counterexample: on the exact token list of the claim, the
extraction function returns ["7.0.203", "REG_SZ"], not the claimed
["7.0.203", "8.0.100"]. -/
theorem C3_extraction_counterexample :
    jsSplit ' ' "HKLM\\...\\sdk  7.0.203 REG_SZ  8.0.100 REG_SZ " =
      ["HKLM\\...\\sdk", "", "7.0.203", "REG_SZ", "", "8.0.100", "REG_SZ", ""] ∧
    extractVersionsOutOfRegistryKeyStrings "HKLM\\...\\sdk  7.0.203 REG_SZ  8.0.100 REG_SZ " =
      ["7.0.203", "REG_SZ"] ∧
    extractVersionsOutOfRegistryKeyStrings "HKLM\\...\\sdk  7.0.203 REG_SZ  8.0.100 REG_SZ " ≠
      ["7.0.203", "8.0.100"] := by
  refine ⟨by decide, by decide, by decide⟩

/-- C3 amended: on the claimed token list, whose records carry blank
hex-data tokens, the blank filter runs first and the every-third selection
drifts onto a type token, returning ["7.0.203", "REG_SZ"]; on output whose
records carry all three tokens (name, type, data) the every-third selection
returns exactly the version names. -/
theorem C3_extraction_amended :
    extractVersionsOutOfRegistryKeyStrings "HKLM\\...\\sdk  7.0.203 REG_SZ  8.0.100 REG_SZ " =
      ["7.0.203", "REG_SZ"] ∧
    extractVersionsOutOfRegistryKeyStrings "HKLM\\...\\sdk  7.0.203 REG_SZ 0x1  8.0.100 REG_SZ 0x2" =
      ["7.0.203", "8.0.100"] := by
  refine ⟨by decide, by decide⟩

/-- C4: on Windows, whenever the conflict check yields a non-empty
version, installSDK ends with a thrown conflicting-install error whose
message carries that version, the only effect of the run is posting that
error to the event stream (so the post precedes the throw), no download and
no installer execution happen, and the file system is untouched. -/
theorem C4_conflict_abort (cfg : InstallConfig) (fs : FsState) (cv : String)
    (hwin : cfg.platform = "win32")
    (hcv : GlobalWindowsInstallWithConflictingVersionAlreadyExists
      cfg.enumeratedSdks cfg.installingVersion = cv)
    (hconf : cv ≠ "") :
    installSDK cfg fs =
      (InstallOutcome.thrown (conflictErrorMessage cv),
       [InstallEffect.postEvent (conflictErrorMessage cv)], fs) ∧
    (∃ pre post, conflictErrorMessage cv = pre ++ cv ++ post) ∧
    (∀ u d, InstallEffect.httpDownload u d ∉ (installSDK cfg fs).2.1) ∧
    (∀ p, InstallEffect.runInstaller p ∉ (installSDK cfg fs).2.1) ∧
    (installSDK cfg fs).2.2 = fs := by
  have hcond : (cfg.platform == "win32") = true := by simp [hwin]
  have hneq : (cv != "") = true := by simpa [bne_iff_ne] using hconf
  have hmain : installSDK cfg fs =
      (InstallOutcome.thrown (conflictErrorMessage cv),
       [InstallEffect.postEvent (conflictErrorMessage cv)], fs) := by
    simp [installSDK, hcond, hcv, hneq]
  refine ⟨hmain,
    ⟨"An global install is already on the machine: version ",
     ", that conflicts with the requested version. Please uninstall this version first if you would like to continue.",
     rfl⟩, ?_, ?_, ?_⟩
  · intro u d
    rw [hmain]
    simp
  · intro p
    rw [hmain]
    simp
  · rw [hmain]

/-- Witness for C4: a Windows machine enumerating 7.0.203 while 7.0.201 is
requested. -/
theorem C4_conflict_abort_witness :
    installSDK c4Cfg [] =
      (InstallOutcome.thrown (conflictErrorMessage "7.0.203"),
       [InstallEffect.postEvent (conflictErrorMessage "7.0.203")], []) :=
  (C4_conflict_abort c4Cfg [] "7.0.203" rfl (by decide) (by decide)).1

/-- C5 counterexample: a run whose download fails performs exactly one
wipe, placed before the download; its last effect is the failed download,
not a wipe, so the scratch directory is NOT wiped after the install step on
every run. -/
theorem C5_wipe_counterexample :
    installSDK c5FailCfg [] =
      (InstallOutcome.thrown "socket hang up",
       [InstallEffect.wipe "scratch",
        InstallEffect.httpDownload "https://server/dotnet-sdk.pkg" "scratch/dotnet-sdk.pkg"],
       []) ∧
    List.countP
      (fun e => match e with | InstallEffect.wipe _ => true | _ => false)
      (installSDK c5FailCfg []).2.1 = 1 ∧
    (installSDK c5FailCfg []).2.1.getLast? =
      some (InstallEffect.httpDownload "https://server/dotnet-sdk.pkg" "scratch/dotnet-sdk.pkg") := by
  refine ⟨rfl, rfl, rfl⟩

/-- C5 amended: every run that reaches the download stage wipes the scratch
directory before the download; when the download resolves, the install step
always resolves too (its errors are caught) and the scratch directory is
wiped again afterwards; when the download rejects, installSDK rejects with
no further effect, so the post-install wipe does not happen. -/
theorem C5_wipe_amended (cfg : InstallConfig) (fs : FsState)
    (hnoconf : cfg.platform = "win32" →
      GlobalWindowsInstallWithConflictingVersionAlreadyExists
        cfg.enumeratedSdks cfg.installingVersion = "")
    (hdir : pathDirname (pathJoin cfg.scratchFolder (lastUrlSegment cfg.installerUrl)) =
      cfg.scratchFolder) :
    ((installSDK cfg fs).2.1).head? = some (InstallEffect.wipe cfg.scratchFolder) ∧
    (∀ r, (installSDK cfg fs).1 = InstallOutcome.ok r →
      (installSDK cfg fs).2.1 =
        [InstallEffect.wipe cfg.scratchFolder,
         InstallEffect.httpDownload cfg.installerUrl
           (pathJoin cfg.scratchFolder (lastUrlSegment cfg.installerUrl)),
         InstallEffect.runInstaller
           (pathJoin cfg.scratchFolder (lastUrlSegment cfg.installerUrl)),
         InstallEffect.wipe cfg.scratchFolder]) ∧
    (∀ e, (installSDK cfg fs).1 = InstallOutcome.thrown e →
      (installSDK cfg fs).2.1 =
        [InstallEffect.wipe cfg.scratchFolder,
         InstallEffect.httpDownload cfg.installerUrl
           (pathJoin cfg.scratchFolder (lastUrlSegment cfg.installerUrl))]) := by
  have hrun : installSDK cfg fs = installSDKDownloadAndRun cfg fs := by
    by_cases hw : cfg.platform = "win32"
    · have hcond : (cfg.platform == "win32") = true := by simp [hw]
      simp [installSDK, hcond, hnoconf hw]
    · have hcond : (cfg.platform == "win32") = false := by
        simp [beq_eq_false_iff_ne, hw]
      simp [installSDK, hcond]
  rw [hrun]
  cases hdl : (download cfg.installerUrl
      (pathJoin cfg.scratchFolder (lastUrlSegment cfg.installerUrl)) cfg.http
      (wipeDirectory cfg.scratchFolder fs)).1 with
  | error e =>
    refine ⟨?_, ?_, ?_⟩
    · simp [installSDKDownloadAndRun, hdl]
    · intro r hr
      simp [installSDKDownloadAndRun, hdl] at hr
    · intro e2 he2
      simp [installSDKDownloadAndRun, hdl]
  | ok u =>
    refine ⟨?_, ?_, ?_⟩
    · simp [installSDKDownloadAndRun, hdl]
    · intro r hr
      simp [installSDKDownloadAndRun, hdl, hdir]
    · intro e2 he2
      simp [installSDKDownloadAndRun, hdl] at he2

/-- Witness for C5 amended: the successful macOS run. -/
theorem C5_wipe_amended_witness :
    ((installSDK c5OkCfg []).2.1).head? = some (InstallEffect.wipe "scratch") :=
  (C5_wipe_amended c5OkCfg []
    (fun h => absurd h (by decide)) (by decide)).1

/-- C6: when the destination path does not previously exist and the
response is non-200 or a transport error, the download rejects and no file
remains at the destination path. -/
theorem C6_download_failure_no_file (url dest : String) (http : HttpOutcome) (fs : FsState)
    (hfresh : fsHas fs dest = false)
    (hfail : ∀ s m b, http = HttpOutcome.response s m b → s ≠ 200) :
    (∃ e, (download url dest http fs).1 = Except.error e) ∧
    fsHas (download url dest http fs).2 dest = false := by
  cases http with
  | transportError m =>
    refine ⟨⟨m, ?_⟩, ?_⟩ <;> simp [download, hfresh, fsHas_fsRemove]
  | response s sm b =>
    have hs : (s == 200) = false := by
      simp [beq_eq_false_iff_ne]
      exact hfail s sm b rfl
    refine ⟨⟨"Server responded with " ++ toString s ++ ": " ++ sm, ?_⟩, ?_⟩ <;>
      simp [download, hfresh, hs, fsHas_fsRemove]

/-- Witness for C6: a 404 response on a fresh destination. -/
theorem C6_download_failure_no_file_witness :
    fsHas (download "https://server/x.exe" "scratch/x.exe"
      (HttpOutcome.response 404 "Not Found" "") []).2 "scratch/x.exe" = false :=
  (C6_download_failure_no_file "https://server/x.exe" "scratch/x.exe"
    (HttpOutcome.response 404 "Not Found" "") [] rfl
    (fun s m b h => by cases h; decide)).2

/-- C7 (code bug): downloading onto an occupied destination does reject,
but the handler compares the error message — which is the full Node string,
never the bare EEXIST — so the unlink branch runs and the pre-existing file
is deleted rather than left unchanged. -/
theorem C7_collision_deletes_existing :
    download "https://server/installer.exe" "scratch/installer.exe"
        (HttpOutcome.response 200 "OK" "new-bits") [("scratch/installer.exe", "old-bits")] =
      (Except.error (nodeEexistMessage "scratch/installer.exe"), []) ∧
    nodeEexistMessage "scratch/installer.exe" ≠ "EEXIST" ∧
    fsHas (download "https://server/installer.exe" "scratch/installer.exe"
        (HttpOutcome.response 200 "OK" "new-bits") [("scratch/installer.exe", "old-bits")]).2
      "scratch/installer.exe" = false := by
  refine ⟨rfl, by decide, rfl⟩

/-- C8: the expected global SDK path is a pure computation — Windows x64
and x32 map to the Program Files trees, macOS maps to the
/usr/local/share/dotnet tree with an x64 subtree for arch x64, and every
other OS yields the unsupported-platform error. -/
theorem C8_expected_sdk_path :
    getExpectedGlobalSDKPath "win32" "7.0.103" "x64" =
      Except.ok "C:\\Program Files\\dotnet\\sdk\\7.0.103\\dotnet.dll" ∧
    (∀ v, getExpectedGlobalSDKPath "win32" v "x64" =
      Except.ok ("C:\\Program Files\\dotnet\\sdk\\" ++ v ++ "\\dotnet.dll")) ∧
    (∀ v, getExpectedGlobalSDKPath "win32" v "x32" =
      Except.ok ("C:\\Program Files (x86)\\dotnet\\sdk\\" ++ v ++ "\\dotnet.dll")) ∧
    (∀ v, getExpectedGlobalSDKPath "darwin" v "x64" =
      Except.ok ("/usr/local/share/dotnet/x64/dotnet/sdk/" ++ v)) ∧
    (∀ v a, a ≠ "x64" → getExpectedGlobalSDKPath "darwin" v a =
      Except.ok ("/usr/local/share/dotnet/sdk/" ++ v)) ∧
    (∀ p v a, p ≠ "win32" → p ≠ "darwin" →
      getExpectedGlobalSDKPath p v a = Except.error unsupportedOSMessage) := by
  refine ⟨rfl, ?_, ?_, ?_, ?_, ?_⟩
  · intro v
    have hj : winPathJoin "C:\\Program Files\\dotnet\\sdk\\" v "dotnet.dll" =
        "C:\\Program Files\\dotnet\\sdk\\" ++ v ++ "\\dotnet.dll" := by
      unfold winPathJoin
      rw [strAppend_assoc, show ("\\" ++ "dotnet.dll" : String) = "\\dotnet.dll" from rfl]
    simp [getExpectedGlobalSDKPath, hj]
  · intro v
    have hj : winPathJoin "C:\\Program Files (x86)\\dotnet\\sdk\\" v "dotnet.dll" =
        "C:\\Program Files (x86)\\dotnet\\sdk\\" ++ v ++ "\\dotnet.dll" := by
      unfold winPathJoin
      rw [strAppend_assoc, show ("\\" ++ "dotnet.dll" : String) = "\\dotnet.dll" from rfl]
    simp [getExpectedGlobalSDKPath, hj]
  · intro v
    rfl
  · intro v a ha
    have hb : (a != "x64") = true := by simpa [bne_iff_ne] using ha
    simp [getExpectedGlobalSDKPath, hb, pathJoin]
  · intro p v a hp hd
    have h1 : (p == "win32") = false := by
      simp [beq_eq_false_iff_ne]
      exact hp
    have h2 : (p == "darwin") = false := by
      simp [beq_eq_false_iff_ne]
      exact hd
    simp [getExpectedGlobalSDKPath, h1, h2]

/-- Witness for C8: an unsupported OS. -/
theorem C8_expected_sdk_path_witness :
    getExpectedGlobalSDKPath "linux" "7.0.103" "x64" = Except.error unsupportedOSMessage :=
  C8_expected_sdk_path.2.2.2.2.2 "linux" "7.0.103" "x64" (by decide) (by decide)

/-- C9 (code bug): on a non-Windows platform the probe spawnSync id -u
exits with status 0 for every user, and the source returns exactly that
status comparison, so isElevated returns true for a user whose effective
user id is 1000 — not "true exactly when the effective user id is zero" as
claimed. -/
theorem C9_nonwindows_probe_not_euid :
    c9Env.effectiveUserId ≠ 0 ∧ isElevated c9Env = true := by
  refine ⟨by decide, rfl⟩

/-- C10: on Windows, an architecture other than x32 and x64 falls through
to the same unsupported-operating-system error that non-Windows/macOS
platforms get. -/
theorem C10_windows_unknown_arch (arch v : String)
    (h32 : arch ≠ "x32") (h64 : arch ≠ "x64") :
    getExpectedGlobalSDKPath "win32" v arch = Except.error unsupportedOSMessage ∧
    getExpectedGlobalSDKPath "linux" v arch = Except.error unsupportedOSMessage := by
  have hb32 : (arch == "x32") = false := by
    simp [beq_eq_false_iff_ne]
    exact h32
  have hb64 : (arch == "x64") = false := by
    simp [beq_eq_false_iff_ne]
    exact h64
  exact ⟨by simp [getExpectedGlobalSDKPath, hb32, hb64], by simp [getExpectedGlobalSDKPath]⟩

/-- Witness for C10: the arm64 architecture string. -/
theorem C10_windows_unknown_arch_witness :
    getExpectedGlobalSDKPath "win32" "7.0.103" "arm64" = Except.error unsupportedOSMessage :=
  (C10_windows_unknown_arch "arm64" "7.0.103" (by decide) (by decide)).1

end DotnetInstaller
